import Mathlib

/-!
  Verification development for the Orquestulator repository.

  Shallow embedding of the claim-relevant parts of the code base:

  * `debounce` — `frontend/src/utils/debounce.js`, the debounce utility,
    modelled as a single-slot timer state machine over an explicit clock
    (`DebounceState`, `debCall`, `debFlush`, `debCancel`).
  * `useSessionState` — the session-synchronized-value hook
    (`hooks/useSessionState.js`), modelled as a state machine
    (`HookState`, `hookStep`) whose events are the setter calls, the
    settling of the initial load, the passage of time (firing due
    debounce timers), the settling of a save, and unmount cleanup.
  * `BackendClient` — `frontend/src/api/backendClient.js`; each method is
    a function of the underlying `fetch` outcome, recording thrown
    errors, returned values and invocations of the session-expired
    callback.
  * `MainPage.evaluateExpression` and the StackStorm connection helpers —
    the request-preparation phase of `evaluateExpression`, and
    `ensureStackStormConnectionSet`, from `components/MainPage.jsx`.

  External libraries (`js-yaml` parsing, the backend evaluators) are
  parameters (oracles) of the corresponding definitions, exactly where
  the source delegates to them.
-/

set_option linter.unusedVariables false

namespace Orquestulator

/-! ## JSON values

JSON values as exchanged with the backend. Numbers are modelled as
integers; no claim depends on floating-point behaviour. Objects are
field lists with unique keys (as produced by `JSON.parse` / `yaml.load`). -/

inductive Json where
  | null
  | bool (b : Bool)
  | num (n : Int)
  | str (s : String)
  | arr (elems : List Json)
  | obj (fields : List (String × Json))

def Json.isArr : Json → Bool
  | .arr _ => true
  | _ => false

/-- First-match field lookup, mirroring JS property access on plain objects. -/
def lookupField : List (String × Json) → String → Option Json
  | [], _ => none
  | (k, v) :: rest, key => if k = key then some v else lookupField rest key

def jsonGet (j : Json) (key : String) : Option Json :=
  match j with
  | .obj fields => lookupField fields key
  | _ => none

/-- JS truthiness of a JSON value. -/
def jsTruthy : Json → Bool
  | .null => false
  | .bool b => b
  | .num n => n != 0
  | .str s => s != ""
  | .arr _ => true
  | .obj _ => true

/-- Truthiness of `j.key` (absent property is `undefined`, which is falsy). -/
def jsGetTruthy (j : Json) (key : String) : Bool :=
  match jsonGet j key with
  | some v => jsTruthy v
  | none => false

/-- `s.trim()`: strips leading and trailing whitespace. -/
def jsTrim (s : String) : String :=
  ⟨((s.data.dropWhile Char.isWhitespace).reverse.dropWhile Char.isWhitespace).reverse⟩

/-- Substring occurrence on character lists. -/
def containsSub : List Char → List Char → Bool
  | hay, needle =>
    match hay with
    | [] => needle.isEmpty
    | _ :: t => needle.isPrefixOf hay || containsSub t needle

/-- `hay.includes(needle)` for the substring tests of `loadInitialValue`
(needles are the non-empty literals "401" and "authentication"). -/
def includesSubstr (hay needle : String) : Bool :=
  containsSub hay.toList needle.toList

/-- `s.startsWith(p)`. -/
def startsWithStr (s p : String) : Bool :=
  p.toList.isPrefixOf s.toList

/-- Assigning key `k` after a spread in an object literal: replaces the
value in place when `k` is already present, appends it otherwise. -/
def setKey : List (String × Json) → String → Json → List (String × Json)
  | [], k, v => [(k, v)]
  | (k', v') :: rest, k, v =>
      if k' = k then (k, v) :: rest else (k', v') :: setKey rest k v

/-- Fields contributed by spreading a value into an object literal:
objects contribute their fields, strings and arrays their indexed
elements, primitives nothing. -/
def spreadFields : Json → List (String × Json)
  | .obj fields => fields
  | .arr elems => elems.enum.map (fun p => (toString p.1, p.2))
  | .str s => s.toList.enum.map (fun p => (toString p.1, Json.str (String.singleton p.2)))
  | _ => []

/-- String rendering of a JSON value when it is interpolated into an
error message (claim-irrelevant; strings pass through unchanged). -/
def jsonMessage : Json → String
  | .str s => s
  | .num n => toString n
  | .bool b => toString b
  | .null => "null"
  | .arr _ => "(array)"
  | .obj _ => "[object Object]"

/-! ## The debounce utility (`utils/debounce.js`)

`debounce(func, delay)` keeps a single `timeoutId` slot. Each call of the
debounced function clears the previous timer and schedules `func` with
the latest arguments at `now + delay`; `cancel` clears the slot. We
model the slot as `pending` (fire time and pending argument) and record
every invocation of the wrapped `func` in `fired`, in order. A timer
that is due (`fireTime ≤ now`) fires before the next event at `now` is
processed. -/

structure DebounceState (α : Type) where
  pending : Option (Nat × α)
  fired : List α

/-- Advance the clock to `now`: the pending timer fires iff it is due. -/
def debFlush {α : Type} (s : DebounceState α) (now : Nat) : DebounceState α :=
  match s.pending with
  | some (fireTime, v) =>
      if fireTime ≤ now then { pending := none, fired := s.fired ++ [v] }
      else s
  | none => s

/-- A call of the debounced function at time `now`: any due timer has
already fired, any not-yet-due timer is cleared (`clearTimeout`), and a
new timer is scheduled at `now + delay` with the latest argument. -/
def debCall {α : Type} (delay : Nat) (s : DebounceState α) (now : Nat) (v : α) : DebounceState α :=
  let s' := debFlush s now
  { s' with pending := some (now + delay, v) }

/-- `debouncedFunction.cancel()`: clears the pending timer. -/
def debCancel {α : Type} (s : DebounceState α) : DebounceState α :=
  { s with pending := none }

/-- Fold a sequence of timed calls of the debounced function. -/
def runCalls {α : Type} (delay : Nat) (s : DebounceState α) (calls : List (Nat × α)) : DebounceState α :=
  calls.foldl (fun st tv => debCall delay st tv.1 tv.2) s

/-- Each listed call happens strictly before the timer scheduled by the
previous call would fire; `ft` is the fire time of the timer pending on
entry. -/
def burstFrom {α : Type} (delay : Nat) (ft : Nat) : List (Nat × α) → Bool
  | [] => true
  | (t, _) :: rest => decide (t < ft) && burstFrom delay (t + delay) rest

/-- Each call in the list happens within less than `delay` of the
previous one (the claim's notion of a burst). -/
def burstOk {α : Type} (delay : Nat) : List (Nat × α) → Bool
  | [] => true
  | (t, _) :: rest => burstFrom delay (t + delay) rest

/-- The timer slot left pending after a burst, starting from a pending
timer `(ft, pv)`. -/
def burstLast {α : Type} (delay : Nat) (ft : Nat) (pv : α) : List (Nat × α) → Nat × α
  | [] => (ft, pv)
  | (t, v) :: rest => burstLast delay (t + delay) v rest

/-! ## The `useSessionState` hook (`hooks/useSessionState.js`)

State machine over the hook's observable state: the local `value`, the
`isLoaded` state, the `hasLoadedRef.current` write gate, the `error`
state, the debounced-save timer (`deb`), and the list of immediate
saves issued. Events are modelled for an instance with `autoLoad = true`
(the configuration every call site uses):

* `hset now arg immediate` — a call of `setValueWithSync` (the debounced
  setter when `immediate = false`, `setValueImmediate` when `true`);
* `loadSettled outcome` — `loadInitialValue` settles: on success with
  the key present the stored value is adopted, on success with the key
  absent (or a null response) the value is kept, on failure the error is
  set only for non-auth, non-empty messages; the `finally` branch sets
  `isLoaded` and `hasLoadedRef.current` in every case;
* `timeAdvance now` — the event loop reaches `now`, firing a due
  debounce timer;
* `saveSettled r` — an issued save resolves, updating `error`;
* `unmount` — the cleanup effect runs `debouncedSave.cancel()`. -/

structure HookConfig where
  key : String
  debounceMs : Nat

inductive SetArg (α : Type) where
  | val (v : α)
  | fn (f : α → α)

/-- `typeof newValue === 'function' ? newValue(prev) : newValue`. -/
def SetArg.apply {α : Type} : SetArg α → α → α
  | .val v, _ => v
  | .fn f, prev => f prev

inductive LoadOutcome (α : Type) where
  | success (stored : Option α)
  | failure (message : String)

inductive HookEvent (α : Type) where
  | hset (now : Nat) (arg : SetArg α) (immediate : Bool)
  | loadSettled (outcome : LoadOutcome α)
  | timeAdvance (now : Nat)
  | saveSettled (r : Except String Unit)
  | unmount

def HookEvent.isLoadEvent {α : Type} : HookEvent α → Bool
  | .loadSettled _ => true
  | _ => false

structure HookState (α : Type) where
  value : α
  isLoaded : Bool
  hasLoaded : Bool
  error : Option String
  deb : DebounceState α
  immediateSaves : List α

/-- Mount state of a hook instance with `autoLoad = true`:
`useState(defaultValue)`, `isLoaded = !autoLoad = false`,
`hasLoadedRef.current = false`, no error, no timer, no saves. -/
def hookInit {α : Type} (defaultValue : α) : HookState α :=
  { value := defaultValue
    isLoaded := false
    hasLoaded := false
    error := none
    deb := { pending := none, fired := [] }
    immediateSaves := [] }

def hookStep {α : Type} (cfg : HookConfig) (s : HookState α) : HookEvent α → HookState α
  | .hset now arg immediate =>
      let actual := arg.apply s.value
      if s.hasLoaded then
        if immediate then
          { s with value := actual, immediateSaves := s.immediateSaves ++ [actual] }
        else
          { s with value := actual, deb := debCall cfg.debounceMs s.deb now actual }
      else
        { s with value := actual }
  | .loadSettled (.success stored) =>
      match stored with
      | some v => { s with value := v, error := none, isLoaded := true, hasLoaded := true }
      | none => { s with error := none, isLoaded := true, hasLoaded := true }
  | .loadSettled (.failure msg) =>
      if msg != "" && !includesSubstr msg "401" && !includesSubstr msg "authentication" then
        { s with error := some ("Failed to load " ++ cfg.key ++ ": " ++ msg)
                 isLoaded := true, hasLoaded := true }
      else
        { s with error := none, isLoaded := true, hasLoaded := true }
  | .timeAdvance now => { s with deb := debFlush s.deb now }
  | .saveSettled (.ok _) => { s with error := none }
  | .saveSettled (.error msg) =>
      { s with error := some ("Failed to save " ++ cfg.key ++ ": " ++ msg) }
  | .unmount => { s with deb := debCancel s.deb }

def runHook {α : Type} (cfg : HookConfig) (s : HookState α) (evs : List (HookEvent α)) : HookState α :=
  evs.foldl (hookStep cfg) s

/-! ## The backend client (`api/backendClient.js`)

Each method is a function of the outcome of the underlying `fetch`
call. A method's result is `Except String v`: `.error msg` models a
thrown `Error(msg)`, `.ok v` a normal return. Alongside the result we
record the invocations of the registered session-expired callback
(`hasCallback` models whether `setSessionExpiredCallback` was called). -/

structure HttpResponse where
  status : Nat
  body : Json

/-- `response.ok`: status in the range 200–299. -/
def respOk (r : HttpResponse) : Bool :=
  200 ≤ r.status && r.status < 300

inductive FetchOutcome where
  | response (r : HttpResponse)
  | networkFailure (message : String)

structure MakeRequestResult where
  result : Except String (Option HttpResponse)
  expiredCalls : List String

/-- `makeRequest`: a network failure is logged and re-thrown; a 401
response invokes the session-expired callback and returns `null`; any
other response is returned to the caller. -/
def makeRequest (hasCallback : Bool) (f : FetchOutcome) : MakeRequestResult :=
  match f with
  | .networkFailure msg => { result := .error msg, expiredCalls := [] }
  | .response r =>
      if r.status = 401 then
        { result := .ok none
          expiredCalls := if hasCallback then ["Your session has expired."] else [] }
      else
        { result := .ok (some r), expiredCalls := [] }

/-- `errorData.detail || dflt`. -/
def detailOr (body : Json) (dflt : String) : String :=
  match jsonGet body "detail" with
  | some d => if jsTruthy d then jsonMessage d else dflt
  | none => dflt

/-- `errorData.detail?.error || errorData.detail || 'Unknown error'`. -/
def evalErrorMessage (body : Json) : String :=
  match jsonGet body "detail" with
  | some d =>
      let fallback := if jsTruthy d then jsonMessage d else "Unknown error"
      match jsonGet d "error" with
      | some e => if jsTruthy e then jsonMessage e else fallback
      | none => fallback
  | none => "Unknown error"

/-- `authenticate` (`POST /api/session/auth`). -/
def authenticate (hasCallback : Bool) (f : FetchOutcome) :
    Except String (Option Json) × List String :=
  match makeRequest hasCallback f with
  | { result := .error m, expiredCalls := cs } => (.error m, cs)
  | { result := .ok none, expiredCalls := cs } => (.ok none, cs)
  | { result := .ok (some r), expiredCalls := cs } =>
      if respOk r then (.ok (some r.body), cs)
      else (.error (detailOr r.body "Authentication failed"), cs)

/-- `checkAuthStatus` (`GET /api/session/status`). -/
def checkAuthStatus (hasCallback : Bool) (f : FetchOutcome) :
    Except String (Option Json) × List String :=
  match makeRequest hasCallback f with
  | { result := .error m, expiredCalls := cs } => (.error m, cs)
  | { result := .ok none, expiredCalls := cs } => (.ok none, cs)
  | { result := .ok (some r), expiredCalls := cs } =>
      if respOk r then (.ok (some r.body), cs)
      else (.error "Failed to check authentication status", cs)

/-- `saveSessionData` (`POST /api/session/data` with body
`data: (key: value)`): errors from the inner try block are re-thrown
with the "Session save failed: " prefix; a null (401) response produces
no throw and no return value. -/
def saveSessionData (hasCallback : Bool) (key : String) (value : Json) (f : FetchOutcome) :
    Except String Unit × List String :=
  match makeRequest hasCallback f with
  | { result := .error m, expiredCalls := cs } =>
      (.error ("Session save failed: " ++ m), cs)
  | { result := .ok none, expiredCalls := cs } => (.ok (), cs)
  | { result := .ok (some r), expiredCalls := cs } =>
      if !respOk r then
        (.error ("Session save failed: " ++ detailOr r.body "Failed to save session data"), cs)
      else (.ok (), cs)

/-- `getSessionData` (`GET /api/session/data`). -/
def getSessionData (hasCallback : Bool) (f : FetchOutcome) :
    Except String (Option Json) × List String :=
  match makeRequest hasCallback f with
  | { result := .error m, expiredCalls := cs } => (.error m, cs)
  | { result := .ok none, expiredCalls := cs } => (.ok none, cs)
  | { result := .ok (some r), expiredCalls := cs } =>
      if respOk r then (.ok (some r.body), cs)
      else (.error "Failed to get session data", cs)

structure EvalClientResult where
  result : Except String (Option Json)
  expiredCalls : List String
  endpointPath : String
  sentBody : Json

/-- `evaluateExpression` (`POST /api/evaluate/(queryType)`): sends
`(expression, data)` as the request body and records it. -/
def evaluateExpressionClient (hasCallback : Bool) (queryType expression : String)
    (data : Json) (f : FetchOutcome) : EvalClientResult :=
  let path := "/api/evaluate/" ++ queryType
  let body := Json.obj [("expression", Json.str expression), ("data", data)]
  match makeRequest hasCallback f with
  | { result := .error m, expiredCalls := cs } =>
      { result := .error m, expiredCalls := cs, endpointPath := path, sentBody := body }
  | { result := .ok none, expiredCalls := cs } =>
      { result := .ok none, expiredCalls := cs, endpointPath := path, sentBody := body }
  | { result := .ok (some r), expiredCalls := cs } =>
      if respOk r then
        { result := .ok (some r.body), expiredCalls := cs, endpointPath := path, sentBody := body }
      else
        { result := .error (evalErrorMessage r.body), expiredCalls := cs,
          endpointPath := path, sentBody := body }

/-- `getStackStormConnections` (`GET /api/stackstorm/connection`). -/
def getStackStormConnections (hasCallback : Bool) (f : FetchOutcome) :
    Except String (Option Json) × List String :=
  match makeRequest hasCallback f with
  | { result := .error m, expiredCalls := cs } => (.error m, cs)
  | { result := .ok none, expiredCalls := cs } => (.ok none, cs)
  | { result := .ok (some r), expiredCalls := cs } =>
      if respOk r then (.ok (some r.body), cs)
      else (.error (detailOr r.body "Failed to get StackStorm connections"), cs)

/-- The custom-connection argument of `setStackStormConnection`. The
`url` field models `customConnection.url` with `""` standing for an
absent or empty (falsy) property; `api_key` is optional. -/
structure CustomConnection where
  url : String
  api_key : Option String

/-- `customConnection.api_key || null`. -/
def apiKeyJson : Option String → Json
  | some s => if s != "" then Json.str s else Json.null
  | none => Json.null

structure SetConnResult where
  result : Except String (Option Json)
  expiredCalls : List String
  requested : Bool
  sentBody : Option Json

/-- `setStackStormConnection` (`PUT /api/stackstorm/connection`): when a
custom connection object is supplied without a url it throws before any
request is made; otherwise the body carries `current` and, when given,
the validated `custom_connection`. -/
def setStackStormConnection (hasCallback : Bool) (connectionId : String)
    (customConnection : Option CustomConnection) (f : FetchOutcome) : SetConnResult :=
  match customConnection with
  | some c =>
      if c.url = "" then
        { result := .error "Custom connection must have a url property"
          expiredCalls := [], requested := false, sentBody := none }
      else
        let body := Json.obj
          [("current", Json.str connectionId),
           ("custom_connection",
            Json.obj [("url", Json.str c.url), ("api_key", apiKeyJson c.api_key)])]
        match makeRequest hasCallback f with
        | { result := .error m, expiredCalls := cs } =>
            { result := .error m, expiredCalls := cs, requested := true, sentBody := some body }
        | { result := .ok none, expiredCalls := cs } =>
            { result := .ok none, expiredCalls := cs, requested := true, sentBody := some body }
        | { result := .ok (some r), expiredCalls := cs } =>
            if respOk r then
              { result := .ok (some r.body), expiredCalls := cs,
                requested := true, sentBody := some body }
            else
              { result := .error (detailOr r.body "Failed to set StackStorm connection")
                expiredCalls := cs, requested := true, sentBody := some body }
  | none =>
      let body := Json.obj [("current", Json.str connectionId)]
      match makeRequest hasCallback f with
      | { result := .error m, expiredCalls := cs } =>
          { result := .error m, expiredCalls := cs, requested := true, sentBody := some body }
      | { result := .ok none, expiredCalls := cs } =>
          { result := .ok none, expiredCalls := cs, requested := true, sentBody := some body }
      | { result := .ok (some r), expiredCalls := cs } =>
          if respOk r then
            { result := .ok (some r.body), expiredCalls := cs,
              requested := true, sentBody := some body }
          else
            { result := .error (detailOr r.body "Failed to set StackStorm connection")
              expiredCalls := cs, requested := true, sentBody := some body }

/-- `testStackStormConnection` (`POST /api/stackstorm/connection/test`). -/
def testStackStormConnection (hasCallback : Bool) (f : FetchOutcome) :
    Except String (Option Json) × List String :=
  match makeRequest hasCallback f with
  | { result := .error m, expiredCalls := cs } => (.error m, cs)
  | { result := .ok none, expiredCalls := cs } => (.ok none, cs)
  | { result := .ok (some r), expiredCalls := cs } =>
      if respOk r then (.ok (some r.body), cs)
      else (.error (detailOr r.body "Failed to test StackStorm connection"), cs)

/-- `getStackStormExecutions` (`GET /api/stackstorm/executions`). -/
def getStackStormExecutions (hasCallback : Bool) (f : FetchOutcome) :
    Except String (Option Json) × List String :=
  match makeRequest hasCallback f with
  | { result := .error m, expiredCalls := cs } => (.error m, cs)
  | { result := .ok none, expiredCalls := cs } => (.ok none, cs)
  | { result := .ok (some r), expiredCalls := cs } =>
      if respOk r then (.ok (some r.body), cs)
      else (.error (detailOr r.body "Failed to get StackStorm executions"), cs)

/-- `getStackStormExecution` (`GET /api/stackstorm/executions/(id)`). -/
def getStackStormExecution (hasCallback : Bool) (executionId : String) (f : FetchOutcome) :
    Except String (Option Json) × List String :=
  match makeRequest hasCallback f with
  | { result := .error m, expiredCalls := cs } => (.error m, cs)
  | { result := .ok none, expiredCalls := cs } => (.ok none, cs)
  | { result := .ok (some r), expiredCalls := cs } =>
      if respOk r then (.ok (some r.body), cs)
      else (.error (detailOr r.body "Failed to get StackStorm execution"), cs)

/-- The load outcome `loadInitialValue` derives from the result of
`backendClient.getSessionData()`: a thrown error is a failure; a null
response, a non-success payload, or a payload whose `data` lacks the
key leaves the default in place; a present key yields its stored value.
(The backend always returns `data` as an object; a non-object `data`
field is modelled as the key-absent case.) -/
def loadOutcomeOfResponse (key : String) (resp : Except String (Option Json)) :
    LoadOutcome Json :=
  match resp with
  | .error msg => .failure msg
  | .ok none => .success none
  | .ok (some body) =>
      if jsTruthy body && jsGetTruthy body "success" && jsGetTruthy body "data" then
        match jsonGet body "data" with
        | some (.obj fields) =>
            match lookupField fields key with
            | some v => .success (some v)
            | none => .success none
        | _ => .success none
      else .success none

/-! ## `MainPage` (`components/MainPage.jsx`)

The request-preparation phase of `evaluateExpression` and the
StackStorm connection helpers. `yaml.load` of the `js-yaml` library is
an oracle parameter `yamlLoad`; its thrown errors are `.error` results
carrying the error message. -/

/-- `validateAndParseData`: rejects blank input, otherwise delegates to
`yaml.load`, re-labelling parse errors as JSON or YAML errors by the
leading character of the trimmed text. -/
def validateAndParseData (yamlLoad : String → Except String Json) (dataText : String) :
    Except String Json :=
  if jsTrim dataText = "" then .error "Cannot parse empty data"
  else
    match yamlLoad dataText with
    | .ok v => .ok v
    | .error m =>
        if startsWithStr (jsTrim dataText) "\x7b" || startsWithStr (jsTrim dataText) "[" then
          .error ("Invalid JSON: " ++ m)
        else
          .error ("Invalid YAML: " ++ m)

/-- The pane label used in error messages: "Context" in orquesta mode,
"Data" otherwise. -/
def ctxLabel (queryType : String) : String :=
  if queryType = "orquesta" then "Context" else "Data"

/-- The relevant component state read by `evaluateExpression`. -/
structure EvalPageInputs where
  query : String
  queryType : String
  contextData : String
  resultData : String
  taskStatusOverride : String

/-- What `evaluateExpression` does before any response is received:
either it sets an error result (`setEvaluationImmediate` with the
message, status `error`) and returns without contacting the backend, or
it issues the evaluation request with the given query type, expression
and data payload. -/
inductive EvalPrep where
  | earlyError (message : String)
  | request (queryType : String) (expression : String) (data : Json)

def EvalPrep.issuedRequest : EvalPrep → Option (String × String × Json)
  | .earlyError _ => none
  | .request qt e d => some (qt, e, d)

def EvalPrep.errorShown : EvalPrep → Option String
  | .earlyError m => some m
  | .request _ _ _ => none

/-- The request-preparation phase of `MainPage.evaluateExpression`:
empty-query check, context parse (only when non-blank), top-level-array
rejection, task-result parse (orquesta mode with truthy `resultData`
only), then the payload: in orquesta mode the spread of the parsed
context extended with the `__task_status` and `__task_result` keys, in
yaql and jinja2 mode the parsed context unchanged. -/
def evaluateExpressionPrep (yamlLoad : String → Except String Json)
    (inp : EvalPageInputs) : EvalPrep :=
  if jsTrim inp.query = "" then .earlyError "Error: Query cannot be empty"
  else
    match (if jsTrim inp.contextData ≠ "" then
             validateAndParseData yamlLoad inp.contextData
           else .ok (Json.obj [])) with
    | .error m => .earlyError (ctxLabel inp.queryType ++ " Parse Error: " ++ m)
    | .ok parsedContextData =>
        if parsedContextData.isArr then
          .earlyError (ctxLabel inp.queryType ++
            " Error: Arrays are not supported at the top level. Please wrap your array in an object, e.g., \x7b\"items\": [...]\x7d")
        else
          match (if inp.queryType = "orquesta" ∧ inp.resultData ≠ "" then
                   validateAndParseData yamlLoad inp.resultData
                 else .ok (Json.obj [])) with
          | .error m => .earlyError ("Task Result Parse Error: " ++ m)
          | .ok parsedResultData =>
              .request inp.queryType inp.query
                (if inp.queryType = "orquesta" then
                   Json.obj (setKey (setKey (spreadFields parsedContextData)
                     "__task_status" (Json.str inp.taskStatusOverride))
                     "__task_result" parsedResultData)
                 else parsedContextData)

/-- JS falsiness of the `st2CurrentConnection` state (`null` or `""`). -/
def connFalsy : Option String → Bool
  | none => true
  | some s => s == ""

structure EnsureResult where
  ready : Bool
  alert : Option String
  connCall : Option SetConnResult

/-- `ensureStackStormConnectionSet`: no connection selected is an alert;
a custom connection with a blank URL is refused with an alert and no
request; otherwise a custom connection is pushed to the backend with the
trimmed URL and the trimmed API key (or null when blank), succeeding
whenever `setStackStormConnection` does not throw; non-custom
connections are already set. -/
def ensureStackStormConnectionSet (conn : Option String)
    (customUrl customApiKey : String) (hasCallback : Bool) (f : FetchOutcome) : EnsureResult :=
  if connFalsy conn then
    { ready := false, alert := some "Please select a connection first", connCall := none }
  else if conn = some "custom" then
    if jsTrim customUrl = "" then
      { ready := false, alert := some "StackStorm URL is required for custom connection"
        connCall := none }
    else
      let call := setStackStormConnection hasCallback "custom"
        (some { url := jsTrim customUrl
                api_key := if jsTrim customApiKey = "" then none else some (jsTrim customApiKey) }) f
      match call.result with
      | .ok _ => { ready := true, alert := none, connCall := some call }
      | .error m =>
          { ready := false, alert := some ("Failed to update custom connection: " ++ m)
            connCall := some call }
  else
    { ready := true, alert := none, connCall := none }

/-- A concrete stand-in for `yaml.load` used to evaluate the theorems on
closed inputs. -/
def sampleYamlLoad : String → Except String Json
  | "a: 1" => .ok (Json.obj [("a", Json.num 1)])
  | "[1, 2]" => .ok (Json.arr [Json.num 1, Json.num 2])
  | "ok: true" => .ok (Json.obj [("ok", Json.bool true)])
  | _ => .error "parse error"

/-- An event is not the settling of the initial load. -/
def notLoadEvent {α : Type} (e : HookEvent α) : Bool := !e.isLoadEvent

/-! ## Helper lemmas -/

lemma runHook_cons {α : Type} (cfg : HookConfig) (s : HookState α)
    (e : HookEvent α) (evs : List (HookEvent α)) :
    runHook cfg s (e :: evs) = runHook cfg (hookStep cfg s e) evs := rfl

lemma runCalls_cons {α : Type} (delay : Nat) (s : DebounceState α)
    (c : Nat × α) (rest : List (Nat × α)) :
    runCalls delay s (c :: rest) = runCalls delay (debCall delay s c.1 c.2) rest := rfl

lemma runCalls_burstFrom {α : Type} (delay : Nat) :
    ∀ (l : List (Nat × α)) (ft : Nat) (pv : α) (f : List α),
      burstFrom delay ft l = true →
      runCalls delay ⟨some (ft, pv), f⟩ l = ⟨some (burstLast delay ft pv l), f⟩ := by
  intro l
  induction l with
  | nil => intro ft pv f _; rfl
  | cons hd rest ih =>
      intro ft pv f h
      obtain ⟨t, v⟩ := hd
      simp only [burstFrom, Bool.and_eq_true, decide_eq_true_eq] at h
      obtain ⟨hlt, hrest⟩ := h
      rw [runCalls_cons]
      have hcall : debCall delay (⟨some (ft, pv), f⟩ : DebounceState α) t v
          = ⟨some (t + delay, v), f⟩ := by
        simp [debCall, debFlush, Nat.not_le.mpr hlt]
      rw [hcall]
      simpa [burstLast] using ih (t + delay) v f hrest

lemma burstLast_getLastD {α : Type} (delay : Nat) :
    ∀ (l : List (Nat × α)), l ≠ [] → ∀ (ft : Nat) (pv : α) (dflt : Nat × α),
      burstLast delay ft pv l = ((l.getLastD dflt).1 + delay, (l.getLastD dflt).2) := by
  intro l
  induction l with
  | nil => intro h; exact absurd rfl h
  | cons hd rest ih =>
      intro _ ft pv dflt
      obtain ⟨t, v⟩ := hd
      cases rest with
      | nil => simp [burstLast, List.getLastD]
      | cons y rest' =>
          rw [List.getLastD_cons]
          simpa [burstLast] using ih (by simp) (t + delay) v (t, v)

lemma hookStep_loadSettled {α : Type} (cfg : HookConfig) (s : HookState α) (o : LoadOutcome α) :
    (hookStep cfg s (.loadSettled o)).deb = s.deb ∧
    (hookStep cfg s (.loadSettled o)).hasLoaded = true ∧
    (hookStep cfg s (.loadSettled o)).isLoaded = true ∧
    (hookStep cfg s (.loadSettled o)).immediateSaves = s.immediateSaves := by
  cases o with
  | success stored => cases stored <;> simp [hookStep]
  | failure msg =>
      simp only [hookStep]
      split <;> simp

lemma runHook_debounced_sets {α : Type} (cfg : HookConfig) :
    ∀ (calls : List (Nat × α)) (s : HookState α), s.hasLoaded = true →
      (runHook cfg s (calls.map (fun tv => HookEvent.hset tv.1 (SetArg.val tv.2) false))).deb
        = runCalls cfg.debounceMs s.deb calls ∧
      (runHook cfg s (calls.map (fun tv => HookEvent.hset tv.1 (SetArg.val tv.2) false))).immediateSaves
        = s.immediateSaves ∧
      (runHook cfg s (calls.map (fun tv => HookEvent.hset tv.1 (SetArg.val tv.2) false))).hasLoaded
        = true := by
  intro calls
  induction calls with
  | nil => intro s h; exact ⟨rfl, rfl, h⟩
  | cons c rest ih =>
      intro s h
      have hstep : hookStep cfg s (HookEvent.hset c.1 (SetArg.val c.2) false)
          = { s with value := c.2, deb := debCall cfg.debounceMs s.deb c.1 c.2 } := by
        simp [hookStep, h, SetArg.apply]
      rw [List.map_cons, runHook_cons, hstep]
      obtain ⟨i1, i2, i3⟩ := ih { s with value := c.2, deb := debCall cfg.debounceMs s.deb c.1 c.2 } (by simpa using h)
      refine ⟨?_, ?_, i3⟩
      · rw [i1, runCalls_cons]
      · exact i2

/-! ## Claim theorems -/

/-- C1: after the initial load settles, a burst of N ≥ 1 calls of the
debounced setter (`setValueWithSync` with `immediate = false`), each
within less than `debounceMs` of the previous one, fires no save during
the burst and leaves exactly one scheduled write, carrying the value of
the last call; once `debounceMs` elapses after the last call that single
write fires with the last value and nothing stays scheduled — every
earlier scheduled write was cancelled before it could fire. -/
theorem c1_debounce_coalescing {α : Type} (cfg : HookConfig) (d : α)
    (outcome : LoadOutcome α) (calls : List (Nat × α)) (s : HookState α)
    (hs : s = runHook cfg (hookInit d)
      (HookEvent.loadSettled outcome ::
        calls.map (fun tv => HookEvent.hset tv.1 (SetArg.val tv.2) false)))
    (hne : calls ≠ [])
    (hburst : burstOk cfg.debounceMs calls = true)
    (last : Nat × α) (hlast : last = calls.getLastD (0, d)) :
    s.deb.fired = [] ∧
    s.immediateSaves = [] ∧
    s.deb.pending = some (last.1 + cfg.debounceMs, last.2) ∧
    ∀ t, last.1 + cfg.debounceMs ≤ t →
      (hookStep cfg s (HookEvent.timeAdvance t)).deb.fired = [last.2] ∧
      (hookStep cfg s (HookEvent.timeAdvance t)).deb.pending = none := by
  cases calls with
  | nil => exact absurd rfl hne
  | cons c rest =>
      obtain ⟨ct, cv⟩ := c
      have hburst' : burstFrom cfg.debounceMs (ct + cfg.debounceMs) rest = true := hburst
      obtain ⟨hdeb1, hload1, hisl1, himm1⟩ :=
        hookStep_loadSettled cfg (hookInit d) outcome
      obtain ⟨hdebF, himmF, _⟩ := runHook_debounced_sets cfg ((ct, cv) :: rest)
        (hookStep cfg (hookInit d) (HookEvent.loadSettled outcome)) hload1
      have hmap : s = runHook cfg (hookStep cfg (hookInit d) (HookEvent.loadSettled outcome))
          (((ct, cv) :: rest).map (fun tv => HookEvent.hset tv.1 (SetArg.val tv.2) false)) := hs
      have hsdeb : s.deb = ⟨some (last.1 + cfg.debounceMs, last.2), []⟩ := by
        rw [hmap, hdebF, hdeb1]
        have h1 : runCalls cfg.debounceMs ((hookInit d).deb) ((ct, cv) :: rest)
            = runCalls cfg.debounceMs ⟨some (ct + cfg.debounceMs, cv), []⟩ rest := rfl
        rw [h1, runCalls_burstFrom cfg.debounceMs rest (ct + cfg.debounceMs) cv [] hburst']
        have h2 : burstLast cfg.debounceMs (ct + cfg.debounceMs) cv rest
            = ((((ct, cv) :: rest).getLastD (0, d)).1 + cfg.debounceMs,
               (((ct, cv) :: rest).getLastD (0, d)).2) :=
          burstLast_getLastD cfg.debounceMs ((ct, cv) :: rest) (by simp) 0 d (0, d)
        rw [h2, hlast]
      refine ⟨by rw [hsdeb], ?_, by rw [hsdeb], ?_⟩
      · rw [hmap, himmF, himm1]; rfl
      · intro t ht
        constructor <;> simp [hookStep, debFlush, hsdeb, ht]

theorem c1_debounce_coalescing_witness :
    (runHook ⟨"k", 100⟩ (hookInit (0 : Nat))
        (HookEvent.loadSettled (LoadOutcome.success none) ::
          [((0 : Nat), (1 : Nat)), (50, 2), (120, 3)].map
            (fun tv => HookEvent.hset tv.1 (SetArg.val tv.2) false))).deb.pending
      = some (220, 3) ∧
    (hookStep ⟨"k", 100⟩
        (runHook ⟨"k", 100⟩ (hookInit (0 : Nat))
          (HookEvent.loadSettled (LoadOutcome.success none) ::
            [((0 : Nat), (1 : Nat)), (50, 2), (120, 3)].map
              (fun tv => HookEvent.hset tv.1 (SetArg.val tv.2) false)))
        (HookEvent.timeAdvance 300)).deb.fired = [3] := by
  have h := c1_debounce_coalescing ⟨"k", 100⟩ 0 (LoadOutcome.success none)
    [((0 : Nat), (1 : Nat)), (50, 2), (120, 3)] _ rfl (by decide) (by decide) _ rfl
  exact ⟨h.2.2.1, (h.2.2.2 300 (by decide)).1⟩

lemma hookStep_preGate {α : Type} (cfg : HookConfig) (s : HookState α) (e : HookEvent α)
    (he : e.isLoadEvent = false)
    (h1 : s.hasLoaded = false) (h2 : s.deb.pending = none)
    (h3 : s.deb.fired = []) (h4 : s.immediateSaves = []) :
    (hookStep cfg s e).hasLoaded = false ∧ (hookStep cfg s e).deb.pending = none ∧
    (hookStep cfg s e).deb.fired = [] ∧ (hookStep cfg s e).immediateSaves = [] := by
  cases e with
  | hset now arg imm => simp [hookStep, h1, h2, h3, h4]
  | loadSettled o => simp [HookEvent.isLoadEvent] at he
  | timeAdvance now => simp [hookStep, debFlush, h1, h2, h3, h4]
  | saveSettled r => cases r <;> simp [hookStep, h1, h2, h3, h4]
  | unmount => simp [hookStep, debCancel, h1, h3, h4]

lemma runHook_preGate {α : Type} (cfg : HookConfig) :
    ∀ (evs : List (HookEvent α)) (s : HookState α),
      evs.all notLoadEvent = true →
      s.hasLoaded = false → s.deb.pending = none → s.deb.fired = [] → s.immediateSaves = [] →
      (runHook cfg s evs).hasLoaded = false ∧
      (runHook cfg s evs).deb.pending = none ∧
      (runHook cfg s evs).deb.fired = [] ∧
      (runHook cfg s evs).immediateSaves = [] := by
  intro evs
  induction evs with
  | nil => intro s _ h1 h2 h3 h4; exact ⟨h1, h2, h3, h4⟩
  | cons e rest ih =>
      intro s hall h1 h2 h3 h4
      rw [List.all_cons, Bool.and_eq_true] at hall
      obtain ⟨he, hrest⟩ := hall
      have he' : e.isLoadEvent = false := by simpa [notLoadEvent] using he
      obtain ⟨p1, p2, p3, p4⟩ := hookStep_preGate cfg s e he' h1 h2 h3 h4
      exact ih (hookStep cfg s e) hrest p1 p2 p3 p4

/-- C2: in every state reachable before the initial load settles (any
event trace from the mount state without the load-settled event), the
write gate is still closed, no debounced write is scheduled or has
fired, and no immediate write was issued — while both setters do update
the local value on every call. A write of the default value therefore
cannot race ahead of the load. -/
theorem c2_no_write_before_load {α : Type} (cfg : HookConfig) (d : α)
    (evs : List (HookEvent α)) (hnoload : evs.all notLoadEvent = true) :
    ((runHook cfg (hookInit d) evs).hasLoaded = false ∧
     (runHook cfg (hookInit d) evs).deb.pending = none ∧
     (runHook cfg (hookInit d) evs).deb.fired = [] ∧
     (runHook cfg (hookInit d) evs).immediateSaves = []) ∧
    ∀ (s : HookState α) (now : Nat) (arg : SetArg α) (immediate : Bool),
      (hookStep cfg s (HookEvent.hset now arg immediate)).value = arg.apply s.value := by
  constructor
  · exact runHook_preGate cfg evs (hookInit d) hnoload rfl rfl rfl rfl
  · intro s now arg immediate
    cases h1 : s.hasLoaded <;> cases immediate <;> simp [hookStep, h1]

theorem c2_no_write_before_load_witness :
    ((runHook ⟨"k", 1000⟩ (hookInit (0 : Nat))
        [HookEvent.hset 0 (SetArg.val 1) false, HookEvent.hset 1 (SetArg.val 2) true,
         HookEvent.timeAdvance 5000, HookEvent.unmount]).deb.fired = []) ∧
    ((runHook ⟨"k", 1000⟩ (hookInit (0 : Nat))
        [HookEvent.hset 0 (SetArg.val 1) false, HookEvent.hset 1 (SetArg.val 2) true,
         HookEvent.timeAdvance 5000, HookEvent.unmount]).immediateSaves = []) := by
  have h := c2_no_write_before_load ⟨"k", 1000⟩ (0 : Nat)
    [HookEvent.hset 0 (SetArg.val 1) false, HookEvent.hset 1 (SetArg.val 2) true,
     HookEvent.timeAdvance 5000, HookEvent.unmount] (by decide)
  exact ⟨h.1.2.2.1, h.1.2.2.2⟩

lemma runHook_timeAdvance_nopending {α : Type} (cfg : HookConfig) :
    ∀ (ts : List Nat) (s : HookState α), s.deb.pending = none →
      (runHook cfg s (ts.map HookEvent.timeAdvance)).deb = s.deb := by
  intro ts
  induction ts with
  | nil => intro s _; rfl
  | cons t rest ih =>
      intro s h
      have hstep : (hookStep cfg s (HookEvent.timeAdvance t)).deb = s.deb := by
        simp [hookStep, debFlush, h]
      have h2 : (hookStep cfg s (HookEvent.timeAdvance t)).deb.pending = none := by
        rw [hstep]; exact h
      rw [List.map_cons, runHook_cons, ih (hookStep cfg s (HookEvent.timeAdvance t)) h2, hstep]

/-- C8: the unmount cleanup cancels any pending debounced write: after
it runs nothing is scheduled, nothing new has fired (the pending value
is not flushed), the immediate-save history is untouched, and however
much time subsequently passes, the previously scheduled save never
fires. -/
theorem c8_unmount_cancels_pending {α : Type} (cfg : HookConfig) (s : HookState α) :
    (hookStep cfg s HookEvent.unmount).deb.pending = none ∧
    (hookStep cfg s HookEvent.unmount).deb.fired = s.deb.fired ∧
    (hookStep cfg s HookEvent.unmount).immediateSaves = s.immediateSaves ∧
    ∀ (ts : List Nat),
      (runHook cfg (hookStep cfg s HookEvent.unmount) (ts.map HookEvent.timeAdvance)).deb.fired
        = s.deb.fired ∧
      (runHook cfg (hookStep cfg s HookEvent.unmount) (ts.map HookEvent.timeAdvance)).deb.pending
        = none := by
  refine ⟨rfl, rfl, rfl, ?_⟩
  intro ts
  have h := runHook_timeAdvance_nopending cfg ts (hookStep cfg s HookEvent.unmount) rfl
  rw [h]
  exact ⟨rfl, rfl⟩

lemma hookStep_hasLoaded_mono {α : Type} (cfg : HookConfig) (s : HookState α)
    (e : HookEvent α) (h : s.hasLoaded = true) :
    (hookStep cfg s e).hasLoaded = true := by
  cases e with
  | hset now arg imm => cases imm <;> simp [hookStep, h]
  | loadSettled o => exact (hookStep_loadSettled cfg s o).2.1
  | timeAdvance now => simpa [hookStep] using h
  | saveSettled r => cases r <;> simpa [hookStep] using h
  | unmount => simpa [hookStep] using h

lemma runHook_hasLoaded_mono {α : Type} (cfg : HookConfig) :
    ∀ (evs : List (HookEvent α)) (s : HookState α),
      s.hasLoaded = true → (runHook cfg s evs).hasLoaded = true := by
  intro evs
  induction evs with
  | nil => intro s h; exact h
  | cons e rest ih =>
      intro s h
      exact ih (hookStep cfg s e) (hookStep_hasLoaded_mono cfg s e h)

/-- C10: whatever way the initial load settles — key present, key
absent, or failure of any kind, authentication loss included — the
`finally` branch leaves both `isLoaded` and the `hasLoadedRef` write
gate true; the gate never closes again under any later event; and once
it is open, every immediate set call appends a write of the new value
and every debounced set call schedules one. -/
theorem c10_load_opens_write_gate {α : Type} (cfg : HookConfig) :
    (∀ (s : HookState α) (outcome : LoadOutcome α),
      (hookStep cfg s (HookEvent.loadSettled outcome)).hasLoaded = true ∧
      (hookStep cfg s (HookEvent.loadSettled outcome)).isLoaded = true) ∧
    (∀ (s : HookState α) (evs : List (HookEvent α)),
      s.hasLoaded = true → (runHook cfg s evs).hasLoaded = true) ∧
    (∀ (s : HookState α) (now : Nat) (arg : SetArg α),
      s.hasLoaded = true →
      (hookStep cfg s (HookEvent.hset now arg true)).immediateSaves
        = s.immediateSaves ++ [arg.apply s.value] ∧
      (hookStep cfg s (HookEvent.hset now arg false)).deb.pending
        = some (now + cfg.debounceMs, arg.apply s.value)) := by
  refine ⟨?_, ?_, ?_⟩
  · intro s outcome
    exact ⟨(hookStep_loadSettled cfg s outcome).2.1, (hookStep_loadSettled cfg s outcome).2.2.1⟩
  · intro s evs h
    exact runHook_hasLoaded_mono cfg evs s h
  · intro s now arg h
    constructor <;> simp [hookStep, h, debCall]

theorem c10_load_opens_write_gate_witness :
    ((hookStep ⟨"k", 1000⟩ (⟨5, true, true, none, ⟨none, []⟩, []⟩ : HookState Nat)
        (HookEvent.hset 3 (SetArg.val 7) true)).immediateSaves = [7]) ∧
    ((hookStep ⟨"k", 1000⟩ (⟨5, true, true, none, ⟨none, []⟩, []⟩ : HookState Nat)
        (HookEvent.hset 3 (SetArg.val 7) false)).deb.pending = some (1003, 7)) ∧
    ((runHook ⟨"k", 1000⟩ (⟨5, true, true, none, ⟨none, []⟩, []⟩ : HookState Nat)
        [HookEvent.unmount, HookEvent.timeAdvance 9999]).hasLoaded = true) := by
  have h := c10_load_opens_write_gate (α := Nat) ⟨"k", 1000⟩
  refine ⟨?_, ?_, ?_⟩
  · exact (h.2.2 ⟨5, true, true, none, ⟨none, []⟩, []⟩ 3 (SetArg.val 7) rfl).1
  · exact (h.2.2 ⟨5, true, true, none, ⟨none, []⟩, []⟩ 3 (SetArg.val 7) rfl).2
  · exact h.2.1 ⟨5, true, true, none, ⟨none, []⟩, []⟩
      [HookEvent.unmount, HookEvent.timeAdvance 9999] rfl

/-- C4: an initial load that succeeds with the backing key absent from
the returned session data leaves the local value at `defaultValue`,
issues no write (nothing scheduled, nothing fired, no immediate save)
and still marks the instance loaded; the local value changes to the
stored value exactly when the key is present. -/
theorem c4_key_absent_keeps_default (cfg : HookConfig) (d : Json)
    (fields : List (String × Json))
    (habsent : lookupField fields cfg.key = none) :
    ((hookStep cfg (hookInit d)
        (HookEvent.loadSettled (loadOutcomeOfResponse cfg.key
          (Except.ok (some (Json.obj
            [("success", Json.bool true), ("data", Json.obj fields)])))))).value = d ∧
     (hookStep cfg (hookInit d)
        (HookEvent.loadSettled (loadOutcomeOfResponse cfg.key
          (Except.ok (some (Json.obj
            [("success", Json.bool true), ("data", Json.obj fields)])))))).deb.pending = none ∧
     (hookStep cfg (hookInit d)
        (HookEvent.loadSettled (loadOutcomeOfResponse cfg.key
          (Except.ok (some (Json.obj
            [("success", Json.bool true), ("data", Json.obj fields)])))))).deb.fired = [] ∧
     (hookStep cfg (hookInit d)
        (HookEvent.loadSettled (loadOutcomeOfResponse cfg.key
          (Except.ok (some (Json.obj
            [("success", Json.bool true), ("data", Json.obj fields)])))))).immediateSaves = [] ∧
     (hookStep cfg (hookInit d)
        (HookEvent.loadSettled (loadOutcomeOfResponse cfg.key
          (Except.ok (some (Json.obj
            [("success", Json.bool true), ("data", Json.obj fields)])))))).isLoaded = true) ∧
    (∀ v : Json,
      (hookStep cfg (hookInit d)
        (HookEvent.loadSettled (LoadOutcome.success (some v)))).value = v) := by
  have hout : loadOutcomeOfResponse cfg.key
      (Except.ok (some (Json.obj [("success", Json.bool true), ("data", Json.obj fields)])))
      = LoadOutcome.success none := by
    simp [loadOutcomeOfResponse, jsGetTruthy, jsonGet, jsTruthy, lookupField, habsent]
  rw [hout]
  exact ⟨⟨rfl, rfl, rfl, rfl, rfl⟩, fun v => rfl⟩

theorem c4_key_absent_keeps_default_witness :
    (hookStep ⟨"k", 1000⟩ (hookInit Json.null)
        (HookEvent.loadSettled (loadOutcomeOfResponse "k"
          (Except.ok (some (Json.obj
            [("success", Json.bool true),
             ("data", Json.obj [("other", Json.num 1)])])))))).value = Json.null := by
  exact (c4_key_absent_keeps_default ⟨"k", 1000⟩ Json.null [("other", Json.num 1)] rfl).1.1

/-- C7 counterexample: a load failure whose error message is the empty
string contains neither "401" nor "authentication", so by the claim it
would have to surface via the error state, yet `loadInitialValue`
suppresses it (the `err.message &&` guard fails on a falsy message) and
the error state stays `none`. -/
theorem c7_counterexample :
    includesSubstr "" "401" = false ∧
    includesSubstr "" "authentication" = false ∧
    (hookStep ⟨"k", 1000⟩ (hookInit Json.null)
      (HookEvent.loadSettled (LoadOutcome.failure ""))).error = none := by
  exact ⟨rfl, rfl, rfl⟩

/-- C7 as amended: on initial-load failure, an error whose message is
empty or contains "401" or "authentication" is suppressed (the error
state stays `none`); an error with a non-empty message containing
neither substring is surfaced as "Failed to load (key): (message)". In
both cases the local value is untouched and the instance is marked
loaded. -/
theorem c7_load_error_filter {α : Type} (cfg : HookConfig) (s : HookState α) (msg : String) :
    ((includesSubstr msg "401" = true ∨ includesSubstr msg "authentication" = true ∨ msg = "") →
      (hookStep cfg s (HookEvent.loadSettled (LoadOutcome.failure msg))).error = none) ∧
    (msg ≠ "" → includesSubstr msg "401" = false → includesSubstr msg "authentication" = false →
      (hookStep cfg s (HookEvent.loadSettled (LoadOutcome.failure msg))).error
        = some ("Failed to load " ++ cfg.key ++ ": " ++ msg)) ∧
    (hookStep cfg s (HookEvent.loadSettled (LoadOutcome.failure msg))).value = s.value ∧
    (hookStep cfg s (HookEvent.loadSettled (LoadOutcome.failure msg))).isLoaded = true ∧
    (hookStep cfg s (HookEvent.loadSettled (LoadOutcome.failure msg))).hasLoaded = true := by
  refine ⟨?_, ?_, ?_, ?_, ?_⟩
  · intro h
    have hcond : (msg != "" && !includesSubstr msg "401" && !includesSubstr msg "authentication")
        = false := by
      rcases h with h | h | h <;> simp [h]
    simp only [hookStep, hcond, Bool.false_eq_true, if_false]
  · intro h1 h2 h3
    have hcond : (msg != "" && !includesSubstr msg "401" && !includesSubstr msg "authentication")
        = true := by
      simp [h1, h2, h3]
    simp only [hookStep, hcond, if_true]
  · simp only [hookStep]; split <;> rfl
  · simp only [hookStep]; split <;> rfl
  · simp only [hookStep]; split <;> rfl

theorem c7_load_error_filter_witness :
    ((hookStep ⟨"k", 1000⟩ (hookInit Json.null)
        (HookEvent.loadSettled (LoadOutcome.failure "boom"))).error
      = some "Failed to load k: boom") ∧
    ((hookStep ⟨"k", 1000⟩ (hookInit Json.null)
        (HookEvent.loadSettled (LoadOutcome.failure "HTTP 401"))).error = none) := by
  constructor
  · exact (c7_load_error_filter ⟨"k", 1000⟩ (hookInit Json.null) "boom").2.1
      (by decide) rfl rfl
  · exact (c7_load_error_filter ⟨"k", 1000⟩ (hookInit Json.null) "HTTP 401").1
      (Or.inl rfl)

lemma evaluateExpressionPrep_request (yamlLoad : String → Except String Json)
    (inp : EvalPageInputs) (pc pr : Json)
    (hq : jsTrim inp.query ≠ "")
    (hctx : (if jsTrim inp.contextData ≠ "" then
               validateAndParseData yamlLoad inp.contextData
             else .ok (Json.obj [])) = .ok pc)
    (hnarr : pc.isArr = false)
    (hres : (if inp.queryType = "orquesta" ∧ inp.resultData ≠ "" then
               validateAndParseData yamlLoad inp.resultData
             else .ok (Json.obj [])) = .ok pr) :
    evaluateExpressionPrep yamlLoad inp = .request inp.queryType inp.query
      (if inp.queryType = "orquesta" then
         Json.obj (setKey (setKey (spreadFields pc)
           "__task_status" (Json.str inp.taskStatusOverride)) "__task_result" pr)
       else pc) := by
  unfold evaluateExpressionPrep
  rw [if_neg hq, hctx]
  simp only [hnarr, Bool.false_eq_true, if_false]
  rw [hres]

lemma evaluateExpressionPrep_array (yamlLoad : String → Except String Json)
    (inp : EvalPageInputs) (xs : List Json)
    (hq : jsTrim inp.query ≠ "")
    (hctx : (if jsTrim inp.contextData ≠ "" then
               validateAndParseData yamlLoad inp.contextData
             else .ok (Json.obj [])) = .ok (Json.arr xs)) :
    evaluateExpressionPrep yamlLoad inp = .earlyError (ctxLabel inp.queryType ++
      " Error: Arrays are not supported at the top level. Please wrap your array in an object, e.g., \x7b\"items\": [...]\x7d") := by
  unfold evaluateExpressionPrep
  rw [if_neg hq, hctx]
  simp [Json.isArr]

/-- C3: with a non-empty query and parseable inputs, the data object of
an orquesta evaluation request is exactly the parsed context object
extended with the two reserved keys — `__task_status` set to the
task-status override ("succeeded" or "failed") and `__task_result` set
to the parsed task-result value — while yaql and jinja2 requests carry
the parsed context unchanged; the client forwards the data object
verbatim as the `data` field of the body sent to the evaluation
endpoint, reserved keys included. -/
theorem c3_orquesta_reserved_keys (yamlLoad : String → Except String Json)
    (inp : EvalPageInputs) (fs : List (String × Json)) (tr : Json)
    (hq : jsTrim inp.query ≠ "")
    (hctx : (if jsTrim inp.contextData ≠ "" then
               validateAndParseData yamlLoad inp.contextData
             else .ok (Json.obj [])) = .ok (Json.obj fs))
    (hres : (if inp.queryType = "orquesta" ∧ inp.resultData ≠ "" then
               validateAndParseData yamlLoad inp.resultData
             else .ok (Json.obj [])) = .ok tr)
    (hts : inp.taskStatusOverride = "succeeded" ∨ inp.taskStatusOverride = "failed") :
    (inp.queryType = "orquesta" →
      evaluateExpressionPrep yamlLoad inp = .request "orquesta" inp.query
        (Json.obj (setKey (setKey fs "__task_status" (Json.str inp.taskStatusOverride))
          "__task_result" tr))) ∧
    ((inp.queryType = "yaql" ∨ inp.queryType = "jinja2") →
      evaluateExpressionPrep yamlLoad inp
        = .request inp.queryType inp.query (Json.obj fs)) ∧
    (∀ (hasCallback : Bool) (f : FetchOutcome) (qt e : String) (dta : Json),
      (evaluateExpressionClient hasCallback qt e dta f).sentBody
        = Json.obj [("expression", Json.str e), ("data", dta)] ∧
      (evaluateExpressionClient hasCallback qt e dta f).endpointPath
        = "/api/evaluate/" ++ qt) := by
  have hmain := evaluateExpressionPrep_request yamlLoad inp (Json.obj fs) tr hq hctx rfl hres
  refine ⟨?_, ?_, ?_⟩
  · intro hqt
    rw [hmain, if_pos hqt, hqt]
    rfl
  · intro hother
    have hne : ¬ inp.queryType = "orquesta" := by
      rcases hother with h | h <;> rw [h] <;> decide
    rw [hmain, if_neg hne]
  · intro hasCallback f qt e dta
    constructor <;>
      (unfold evaluateExpressionClient; split <;> first | rfl | (split <;> rfl))

theorem c3_orquesta_reserved_keys_witness :
    evaluateExpressionPrep sampleYamlLoad
      ⟨"<% ctx() %>", "orquesta", "a: 1", "ok: true", "failed"⟩
      = .request "orquesta" "<% ctx() %>"
        (Json.obj [("a", Json.num 1), ("__task_status", Json.str "failed"),
                   ("__task_result", Json.obj [("ok", Json.bool true)])]) := by
  exact (c3_orquesta_reserved_keys sampleYamlLoad
    ⟨"<% ctx() %>", "orquesta", "a: 1", "ok: true", "failed"⟩
    [("a", Json.num 1)] (Json.obj [("ok", Json.bool true)])
    (by decide) rfl rfl (Or.inr rfl)).1 rfl

/-- C9: whenever the parsed context data is a top-level array,
`evaluateExpression` shows the arrays-not-supported error, sets the
error status, and issues no request to the evaluation endpoint — for
every query type, since the check runs before the type-specific
payload is built. -/
theorem c9_toplevel_array_rejected (yamlLoad : String → Except String Json)
    (inp : EvalPageInputs) (xs : List Json)
    (hq : jsTrim inp.query ≠ "")
    (hctx : (if jsTrim inp.contextData ≠ "" then
               validateAndParseData yamlLoad inp.contextData
             else .ok (Json.obj [])) = .ok (Json.arr xs)) :
    evaluateExpressionPrep yamlLoad inp = .earlyError (ctxLabel inp.queryType ++
      " Error: Arrays are not supported at the top level. Please wrap your array in an object, e.g., \x7b\"items\": [...]\x7d") ∧
    (evaluateExpressionPrep yamlLoad inp).issuedRequest = none ∧
    (evaluateExpressionPrep yamlLoad inp).errorShown = some (ctxLabel inp.queryType ++
      " Error: Arrays are not supported at the top level. Please wrap your array in an object, e.g., \x7b\"items\": [...]\x7d") := by
  have h := evaluateExpressionPrep_array yamlLoad inp xs hq hctx
  rw [h]
  exact ⟨rfl, rfl, rfl⟩

theorem c9_toplevel_array_rejected_witness :
    evaluateExpressionPrep sampleYamlLoad ⟨"$.x", "yaql", "[1, 2]", "", "succeeded"⟩
      = .earlyError "Data Error: Arrays are not supported at the top level. Please wrap your array in an object, e.g., \x7b\"items\": [...]\x7d" ∧
    (evaluateExpressionPrep sampleYamlLoad
      ⟨"$.x", "yaql", "[1, 2]", "", "succeeded"⟩).issuedRequest = none := by
  have h := c9_toplevel_array_rejected sampleYamlLoad
    ⟨"$.x", "yaql", "[1, 2]", "", "succeeded"⟩ [Json.num 1, Json.num 2]
    (by decide) rfl
  exact ⟨h.1, h.2.1⟩

/-- C5: supplying a custom connection object without a url makes
`setStackStormConnection` throw its validation error before any update
request is issued; `ensureStackStormConnectionSet` refuses a custom
connection with a blank URL, reporting "StackStorm URL is required for
custom connection" and issuing no request; with a non-blank URL and a
successful response the helper succeeds, the update request is issued,
and its body selects `current = "custom"` with the trimmed custom
payload. -/
theorem c5_custom_connection_validation :
    (∀ (hasCallback : Bool) (connectionId : String) (c : CustomConnection) (f : FetchOutcome),
      c.url = "" →
      setStackStormConnection hasCallback connectionId (some c) f
        = { result := .error "Custom connection must have a url property",
            expiredCalls := [], requested := false, sentBody := none }) ∧
    (∀ (hasCallback : Bool) (customUrl customApiKey : String) (f : FetchOutcome),
      jsTrim customUrl = "" →
      ensureStackStormConnectionSet (some "custom") customUrl customApiKey hasCallback f
        = { ready := false, alert := some "StackStorm URL is required for custom connection",
            connCall := none }) ∧
    (∀ (customUrl customApiKey : String) (r : HttpResponse),
      jsTrim customUrl ≠ "" → respOk r = true →
      ensureStackStormConnectionSet (some "custom") customUrl customApiKey true (.response r)
        = { ready := true, alert := none,
            connCall := some
              { result := .ok (some r.body), expiredCalls := [], requested := true,
                sentBody := some (Json.obj
                  [("current", Json.str "custom"),
                   ("custom_connection", Json.obj
                     [("url", Json.str (jsTrim customUrl)),
                      ("api_key", apiKeyJson
                        (if jsTrim customApiKey = "" then none
                         else some (jsTrim customApiKey)))])]) } }) := by
  refine ⟨?_, ?_, ?_⟩
  · intro cb cid c f h
    simp [setStackStormConnection, h]
  · intro cb url key f h
    simp [ensureStackStormConnectionSet, connFalsy, h]
  · intro url key r hurl hok
    have h401 : ¬ r.status = 401 := by
      simp only [respOk, Bool.and_eq_true, decide_eq_true_eq] at hok
      omega
    have hcall : setStackStormConnection true "custom"
        (some ⟨jsTrim url, if jsTrim key = "" then none else some (jsTrim key)⟩)
        (.response r)
        = { result := .ok (some r.body), expiredCalls := [], requested := true,
            sentBody := some (Json.obj
              [("current", Json.str "custom"),
               ("custom_connection", Json.obj
                 [("url", Json.str (jsTrim url)),
                  ("api_key", apiKeyJson
                    (if jsTrim key = "" then none else some (jsTrim key)))])]) } := by
      simp [setStackStormConnection, hurl, makeRequest, h401, hok]
    simp [ensureStackStormConnectionSet, connFalsy, hurl, hcall]

theorem c5_custom_connection_validation_witness :
    ((setStackStormConnection true "custom" (some ⟨"", none⟩)
        (.response ⟨200, Json.obj []⟩)).requested = false) ∧
    ((ensureStackStormConnectionSet (some "custom") " " "" true
        (.response ⟨200, Json.obj []⟩)).ready = false) ∧
    ((ensureStackStormConnectionSet (some "custom") "http://x" "" true
        (.response ⟨200, Json.obj []⟩)).ready = true) := by
  have h := c5_custom_connection_validation
  refine ⟨?_, ?_, ?_⟩
  · rw [h.1 true "custom" ⟨"", none⟩ (.response ⟨200, Json.obj []⟩) rfl]
  · rw [h.2.1 true " " "" (.response ⟨200, Json.obj []⟩) (by decide)]
  · rw [h.2.2 "http://x" "" ⟨200, Json.obj []⟩ (by decide) rfl]

/-- C6: a 401 response invokes the registered session-expired callback
with the message "Your session has expired." and makes the call yield
no value — neither a thrown error nor a response object — identically
for every endpoint wrapper, since all of them go through the same
`makeRequest` path (`saveSessionData`, which never returns a value,
likewise does not throw). -/
theorem c6_http401_uniform (body : Json) (key cid eid qt e : String) (v dta : Json) :
    makeRequest true (.response ⟨401, body⟩)
      = { result := .ok none, expiredCalls := ["Your session has expired."] } ∧
    authenticate true (.response ⟨401, body⟩)
      = (.ok none, ["Your session has expired."]) ∧
    checkAuthStatus true (.response ⟨401, body⟩)
      = (.ok none, ["Your session has expired."]) ∧
    saveSessionData true key v (.response ⟨401, body⟩)
      = (.ok (), ["Your session has expired."]) ∧
    getSessionData true (.response ⟨401, body⟩)
      = (.ok none, ["Your session has expired."]) ∧
    (evaluateExpressionClient true qt e dta (.response ⟨401, body⟩)).result = .ok none ∧
    (evaluateExpressionClient true qt e dta (.response ⟨401, body⟩)).expiredCalls
      = ["Your session has expired."] ∧
    getStackStormConnections true (.response ⟨401, body⟩)
      = (.ok none, ["Your session has expired."]) ∧
    (setStackStormConnection true cid none (.response ⟨401, body⟩)).result = .ok none ∧
    (setStackStormConnection true cid none (.response ⟨401, body⟩)).expiredCalls
      = ["Your session has expired."] ∧
    testStackStormConnection true (.response ⟨401, body⟩)
      = (.ok none, ["Your session has expired."]) ∧
    getStackStormExecutions true (.response ⟨401, body⟩)
      = (.ok none, ["Your session has expired."]) ∧
    getStackStormExecution true eid (.response ⟨401, body⟩)
      = (.ok none, ["Your session has expired."]) := by
  exact ⟨rfl, rfl, rfl, rfl, rfl, rfl, rfl, rfl, rfl, rfl, rfl, rfl, rfl⟩

end Orquestulator
